import Mathlib

/-!
Verification of the congress-bill-tracker program (src/bill_tracker.py) against
its natural-language specification.  The Python source is shallowly embedded:
strings are Lean strings (a structure around a list of characters, matching
the Python str code-point view), dictionaries are association lists that keep
insertion order, and the two external effects that the verified properties
depend on (the publish call and the bill-detail fetch) are passed in as
boolean-valued oracles.  The built-in Python hash function on strings is
implementation defined, so it is passed in as an explicit parameter; every
theorem about dedup keys is proved for an arbitrary such function.
-/

set_option maxHeartbeats 1000000

namespace BillTracker

/-- ASCII lowercase of one character: the model of Python str.lower on the
ASCII action texts this program handles. -/
def pyCharLower (c : Char) : Char :=
  if 65 ≤ c.toNat ∧ c.toNat ≤ 90 then Char.ofNat (c.toNat + 32) else c

/-- Model of the Python expression s.lower(), mapping over the code points. -/
def pyLower (s : String) : String := ⟨s.data.map pyCharLower⟩

/-- Does the second list start with the first list, character by character? -/
def listStartsWith : List Char → List Char → Bool
  | [], _ => true
  | _ :: _, [] => false
  | a :: as, b :: bs => a == b && listStartsWith as bs

/-- Contiguous-sublist test on character lists: the model of the Python
operator `needle in haystack` for strings. -/
def listHasSub (needle : List Char) : List Char → Bool
  | [] => listStartsWith needle []
  | c :: rest => listStartsWith needle (c :: rest) || listHasSub needle rest

/-- Model of the Python expression `needle in haystack` on strings. -/
def pyContains (haystack needle : String) : Bool :=
  listHasSub needle.data haystack.data

/-- Model of the Python slice s[:n] (a code-point slice). -/
def pyTake (n : Nat) (s : String) : String := ⟨s.data.take n⟩

/-- ASCII decimal digit, the model of the regex digit class on the ASCII
action texts this program handles. -/
def pyIsDigit (c : Char) : Bool := 48 ≤ c.toNat && c.toNat ≤ 57

/-- ASCII whitespace, the model of the regex whitespace class. -/
def pyIsSpace (c : Char) : Bool :=
  c == ' ' || c == '\t' || c == '\n' || c == '\r' || c == '\x0b' || c == '\x0c'

/-- Tail of the vote regex of extract_vote_from_action: after the dash, match
any whitespace and then one to three digits (the second capture group). -/
def voteTailMatch (cs : List Char) : Option (List Char) :=
  let rest := cs.dropWhile pyIsSpace
  let ds := (rest.takeWhile pyIsDigit).take 3
  if ds.isEmpty then none else some ds

/-- Middle of the vote regex: given a candidate first capture group g1 and the
remaining input, match any whitespace, a hyphen or en dash, and the tail. -/
def voteAfterGroup1 (g1 : List Char) (cs : List Char) :
    Option (List Char × List Char) :=
  match cs.dropWhile pyIsSpace with
  | [] => none
  | c :: rest =>
    if c == '-' || c == '–' then (voteTailMatch rest).map (fun g2 => (g1, g2))
    else none

/-- Greedy-with-backtracking choice of the first capture group length: try
taking k digits of the leading digit run, from 3 down to 1, the semantics of
the bounded repetition in the vote regex. -/
def voteGroup1Try (digitRun : List Char) (rest : List Char) :
    Nat → Option (List Char × List Char)
  | 0 => none
  | k + 1 =>
    match voteAfterGroup1 (digitRun.take (k + 1)) (digitRun.drop (k + 1) ++ rest) with
    | some r => some r
    | none => voteGroup1Try digitRun rest k

/-- Try to match the vote regex anchored at the start of the input. -/
def voteMatchAt (cs : List Char) : Option (List Char × List Char) :=
  let run := cs.takeWhile pyIsDigit
  if run.isEmpty then none
  else voteGroup1Try run (cs.drop run.length) 3

/-- Leftmost search for the vote regex over all start positions: the model of
re.search with the vote-count pattern used in extract_vote_from_action. -/
def voteSearch : List Char → Option (List Char × List Char)
  | [] => none
  | c :: rest =>
    match voteMatchAt (c :: rest) with
    | some r => some r
    | none => voteSearch rest

/-- A bill action as handled by the program: a date and a free-text
description (the two keys the source reads from the action dictionary), plus
the structured recorded-vote records the upstream API may attach to an action,
which the source never reads. -/
structure BillAction where
  actionDate : String
  text : String
  recordedVotes : List (Nat × Nat)
  deriving DecidableEq

/-- Embedding of extract_vote_from_action (src/bill_tracker.py lines
894-915): regex search for a numeric tally in the free text, then the two
non-numeric outcomes, otherwise no vote.  Only the text field is consulted. -/
def extract_vote_from_action (action : BillAction) : Option String :=
  let action_text := action.text
  match voteSearch action_text.data with
  | some (yea, nay) => some ("(" ++ String.mk yea ++ "-" ++ String.mk nay ++ ")")
  | none =>
    if pyContains (pyLower action_text) "voice vote" then some "(voice vote)"
    else if pyContains (pyLower action_text) "unanimous consent" then
      some "(unanimous consent)"
    else none

/-- Embedding of fetch_current_president (lines 115-123): hardcoded. -/
def fetch_current_president : String := "Trump"

/-- The keyword list of is_significant_action (lines 1036-1047). -/
def significant_keywords : List String :=
  ["passed", "signed by president", "veto", "reported by", "placed on calendar",
   "cloture", "conference report", "resolving differences", "motion to proceed",
   "discharged from"]

/-- Embedding of is_significant_action (lines 1032-1050). -/
def is_significant_action (action_text : String) : Bool :=
  let action_lower := pyLower action_text
  significant_keywords.any (fun keyword => pyContains action_lower keyword)

/-- Embedding of get_action_priority (lines 1486-1514). -/
def get_action_priority (action_text : String) : Nat :=
  let action_lower := pyLower action_text
  if pyContains action_lower "signed by president" then 1
  else if pyContains action_lower "veto" then 1
  else if pyContains action_lower "passed" then 2
  else if pyContains action_lower "conference report" then 3
  else if pyContains action_lower "cloture" then 4
  else if pyContains action_lower "reported by" then 4
  else 5

/-- A scheduled calendar event passed to get_whats_next. -/
structure ScheduledEvent where
  type : String
  formatted_date : String
  deriving DecidableEq

/-- The prior-history scan of get_whats_next (lines 977-985): did any action
in the history pass the House? -/
def passedHouseIn (hist : List BillAction) : Bool :=
  hist.any (fun a =>
    pyContains (pyLower a.text) "passed" && pyContains (pyLower a.text) "house")

/-- The prior-history scan of get_whats_next: did any action pass the
Senate? -/
def passedSenateIn (hist : List BillAction) : Bool :=
  hist.any (fun a =>
    pyContains (pyLower a.text) "passed" && pyContains (pyLower a.text) "senate")

/-- Embedding of get_whats_next (lines 965-1029).  A missing action history
is the empty list (the Python loop is skipped for both None and an empty
list) and a missing scheduled event is none (an empty dictionary is falsy). -/
def get_whats_next (action_text : String) (action_history : List BillAction)
    (scheduled_event : Option ScheduledEvent) : String :=
  let action_lower := pyLower action_text
  let passed_house := passedHouseIn action_history
  let passed_senate := passedSenateIn action_history
  if pyContains action_lower "signed by president" then "Policy implementation"
  else if pyContains action_lower "vetoed" || pyContains action_lower "veto" then
    "Congress can override with 2/3 vote in both chambers or veto upheld"
  else if pyContains action_lower "passed" && pyContains action_lower "house" then
    if passed_senate then "President\x27s signature" else "Senate vote"
  else if pyContains action_lower "passed" && pyContains action_lower "senate" then
    if passed_house then "President\x27s signature" else "House vote"
  else if pyContains action_lower "passed" then "Other chamber vote"
  else if pyContains action_lower "conference report" &&
      (pyContains action_lower "agreed" || pyContains action_lower "adopted") then
    "President\x27s signature"
  else if pyContains action_lower "cloture" &&
      (pyContains action_lower "invoked" || pyContains action_lower "agreed") then
    "Senate floor vote"
  else
    match scheduled_event with
    | some ev => ev.type ++ " scheduled for " ++ ev.formatted_date
    | none =>
      if pyContains action_lower "reported by" then
        "TBD (amendments, floor vote, tabled, stalls, or fails)"
      else if pyContains action_lower "placed on" &&
          pyContains action_lower "calendar" then
        "TBD (floor debate, floor vote, removed, or fails)"
      else if pyContains action_lower "motion to proceed" then
        "TBD (debate begins, filibuster, or withdrawn)"
      else if pyContains action_lower "discharged from" then
        "TBD (amendments, floor vote, tabled, stalls, or fails)"
      else if pyContains action_lower "resolving differences" then
        "TBD (conference committee, chamber adopts amended text, stalls, or fails)"
      else "TBD"

/-- Embedding of create_action_label (lines 1263-1352): the ordered chain of
keyword checks producing the label and the include-vote flag, then the
optional vote suffix. -/
def create_action_label (action_text : String) (vote_count : Option String) :
    String :=
  let action_lower := pyLower action_text
  let labelVote : String × Bool :=
    if pyContains action_lower "passed house" ||
        (pyContains action_lower "passed" && pyContains action_lower "house") then
      ("Passed House", true)
    else if pyContains action_lower "passed senate" ||
        (pyContains action_lower "passed" && pyContains action_lower "senate") then
      ("Passed Senate", true)
    else if pyContains action_lower "on passage" && pyContains action_lower "passed" then
      ("Passed", true)
    else if pyContains action_lower "passed" then ("Passed", true)
    else if pyContains action_lower "signed by president" then
      if fetch_current_president ≠ "" then
        ("Signed by President " ++ fetch_current_president, false)
      else ("Signed by President", false)
    else if pyContains action_lower "became public law" then
      ("Became Public Law", false)
    else if pyContains action_lower "vetoed" || pyContains action_lower "veto" then
      if fetch_current_president ≠ "" then
        ("Vetoed by President " ++ fetch_current_president, false)
      else ("Vetoed by President", false)
    else if pyContains action_lower "reported by" then
      if pyContains action_lower "favorably" then
        ("Reported by Committee (Favorably)", false)
      else if pyContains action_lower "unfavorably" then
        ("Reported by Committee (Unfavorably)", false)
      else ("Reported by Committee", false)
    else if pyContains action_lower "ordered reported" then
      ("Ordered Reported", false)
    else if pyContains action_lower "placed on" &&
        pyContains action_lower "calendar" then
      ("Placed on Calendar", false)
    else if pyContains action_lower "cloture" then
      if pyContains action_lower "invoked" || pyContains action_lower "agreed" then
        ("Cloture Invoked", true)
      else ("Cloture Motion Filed", false)
    else if pyContains action_lower "conference report" then
      if pyContains action_lower "agreed" || pyContains action_lower "adopted" then
        ("Conference Report Agreed To", true)
      else ("Conference Report Filed", false)
    else if pyContains action_lower "motion to proceed" then
      ("Motion to Proceed", true)
    else if pyContains action_lower "discharged from" then
      ("Discharged from Committee", false)
    else if pyContains action_lower "agreed to" || pyContains action_lower "adopted" then
      ("Agreed To", true)
    else if pyContains action_lower "resolving differences" then
      ("Resolving Differences", false)
    else
      (if action_text.length > 40 then pyTake 40 action_text ++ "..." else action_text,
       true)
  match vote_count with
  | some vc =>
    if labelVote.2 then
      let vc2 := if listStartsWith "(".data vc.data then vc else "(" ++ vc ++ ")"
      labelVote.1 ++ " " ++ vc2
    else labelVote.1
  | none => labelVote.1

/-- First-match lookup in an association list: the model of a read from a
Python dictionary (each dictionary here has distinct keys, so first match is
the dictionary lookup). -/
def alookup {α : Type} : List (String × α) → String → Option α
  | [], _ => none
  | (k, v) :: rest, key => if k = key then some v else alookup rest key

/-- Key assignment in an association list: the model of a Python dictionary
item assignment; an existing key keeps its position, a new key is appended. -/
def aupdate {α : Type} : List (String × α) → String → α → List (String × α)
  | [], key, v => [(key, v)]
  | (k, w) :: rest, key, v =>
    if k = key then (k, v) :: rest else (k, w) :: aupdate rest key v

/-- Embedding of generate_action_id (lines 1479-1483).  The built-in Python
hash on strings is implementation defined, so it is an explicit parameter;
only the first 50 characters of the action text are hashed. -/
def generate_action_id (pyHash : String → Int) (bill_type : String)
    (bill_number : Nat) (action : BillAction) : String :=
  let action_date := action.actionDate
  let action_text := pyTake 50 action.text
  bill_type ++ toString bill_number ++ "_" ++ action_date ++ "_" ++
    toString (pyHash action_text)

/-- A bill as returned by the list endpoint: the three keys the tracker reads
(type, number, latestAction). -/
structure Bill where
  type : String
  number : Nat
  latestAction : Option BillAction
  deriving DecidableEq

/-- A persisted bill-status snapshot record (the two keys written and read by
run_tracker). -/
structure BillStatus where
  actionDate : String
  actionText : String
  deriving DecidableEq

/-- A posting candidate assembled by run_tracker (lines 1629-1635).  The
source stores the whole bill dictionary; only the lowercased type and the
number are read from it later (lines 1655-1656), so those projections are
stored here. -/
structure Candidate where
  billType : String
  billNumber : Nat
  bill_key : String
  actionDate : String
  actionText : String
  priority : Nat
  deriving DecidableEq

/-- The dedup key the posting loop computes for a candidate (lines
1659-1665): the action dictionary is rebuilt from the candidate date and
text, without any recorded-vote data. -/
def candidateActionId (pyHash : String → Int) (c : Candidate) : String :=
  generate_action_id pyHash c.billType c.billNumber ⟨c.actionDate, c.actionText, []⟩

/-- State of the candidate-selection loop of run_tracker (lines 1581-1635):
bill keys already seen this run, the accumulated candidate list, and the
bill-status map being updated for non-significant actions. -/
structure SelState where
  seen : List String
  candidates : List Candidate
  status : List (String × BillStatus)
  deriving DecidableEq

/-- One iteration of the candidate-selection loop (lines 1584-1635). -/
def selectStep (st : SelState) (bill : Bill) : SelState :=
  let bill_type := pyLower bill.type
  if bill_type = "" ∨ bill.number = 0 then st
  else
    let bill_key := bill_type ++ toString bill.number
    if bill_key ∈ st.seen then st
    else
      let st1 : SelState := { st with seen := bill_key :: st.seen }
      match bill.latestAction with
      | none => st1
      | some latest_action =>
        if latest_action.text = "" then st1
        else if is_significant_action latest_action.text = false then
          let status1 :=
            aupdate st1.status bill_key ⟨latest_action.actionDate, latest_action.text⟩
          { st1 with status := status1 }
        else
          let stored := (alookup st1.status bill_key).getD ⟨"", ""⟩
          if latest_action.actionDate = stored.actionDate ∧
              latest_action.text = stored.actionText then st1
          else
            { st1 with candidates := st1.candidates ++
                [⟨bill_type, bill.number, bill_key, latest_action.actionDate,
                  latest_action.text, get_action_priority latest_action.text⟩] }

/-- The candidate-selection phase of run_tracker over the fetched bill list,
starting from the loaded bill-status map. -/
def selectCandidates (bills : List Bill)
    (bill_status : List (String × BillStatus)) : SelState :=
  bills.foldl selectStep ⟨[], [], bill_status⟩

/-- Stable insertion by ascending priority: an element is placed before the
first strictly larger priority, so earlier candidates stay first on ties. -/
def insertByPriority (c : Candidate) : List Candidate → List Candidate
  | [] => [c]
  | d :: rest =>
    if c.priority ≤ d.priority then c :: d :: rest else d :: insertByPriority c rest

/-- The candidate sort of run_tracker (line 1640): a stable sort on the
priority key, the documented behavior of the Python list sort. -/
def sortCandidates : List Candidate → List Candidate
  | [] => []
  | c :: rest => insertByPriority c (sortCandidates rest)

/-- State of the posting loop of run_tracker (lines 1642-1707): the
posted-actions key set, the bill-status map, the count of action posts made,
and the dedup keys that were rendered into a tweet and actually published. -/
structure ProcState where
  posted : List String
  status : List (String × BillStatus)
  made : Nat
  rendered : List String
  published : List String
  deriving DecidableEq

/-- One iteration of the posting loop (lines 1648-1707).  `pub` is the
outcome of the publish call post_to_x for this candidate (false on a caught
publish error) and `details` is whether fetch_bill_details returned data.
On a publish error nothing is recorded in posted, but the bill-status entry
is still assigned (lines 1703-1707 run unconditionally after the attempt). -/
def procStep (pyHash : String → Int) (pub details : Candidate → Bool)
    (post_to_twitter : Bool) (max_action_posts : Nat) (st : ProcState)
    (c : Candidate) : ProcState :=
  if max_action_posts ≤ st.made then st
  else
    let action_id := candidateActionId pyHash c
    let newStatus := aupdate st.status c.bill_key ⟨c.actionDate, c.actionText⟩
    if action_id ∈ st.posted then
      { st with status := newStatus }
    else if details c = false then st
    else
      let st2 := { st with rendered := st.rendered ++ [action_id] }
      if post_to_twitter then
        if pub c then
          { st2 with posted := st2.posted ++ [action_id], made := st2.made + 1,
                     published := st2.published ++ [action_id], status := newStatus }
        else
          { st2 with status := newStatus }
      else
        { st2 with posted := st2.posted ++ [action_id], made := st2.made + 1,
                   status := newStatus }

/-- The posting loop over the sorted candidates.  The source breaks out once
the cap is reached; since the step is then the identity, folding over the
rest is equivalent. -/
def processCandidates (pyHash : String → Int) (pub details : Candidate → Bool)
    (post_to_twitter : Bool) (max_action_posts : Nat) :
    List Candidate → ProcState → ProcState
  | [], st => st
  | c :: rest, st =>
    processCandidates pyHash pub details post_to_twitter max_action_posts rest
      (procStep pyHash pub details post_to_twitter max_action_posts st c)

/-- Part 1 of run_tracker (lines 1569-1711): select candidates against the
persisted bill status, sort them by priority, and run the posting loop on the
loaded posted-actions keys. -/
def runPart1 (pyHash : String → Int) (pub details : Candidate → Bool)
    (post_to_twitter : Bool) (max_action_posts : Nat) (bills : List Bill)
    (posted_actions : List String) (bill_status : List (String × BillStatus)) :
    ProcState :=
  let sel := selectCandidates bills bill_status
  processCandidates pyHash pub details post_to_twitter max_action_posts
    (sortCandidates sel.candidates) ⟨posted_actions, sel.status, 0, [], []⟩

/-- A calendar meeting record as it reaches detect_markup_changes: the three
keys that function reads.  The fetchers always include the eventId key (its
value may be the Python None, which str turns into the string "None"); they
set a status field but never a meetingStatus field, which is why
meetingStatus is an Option here. -/
structure Meeting where
  eventId : Option String
  meetingStatus : Option String
  status : String
  date : String
  deriving DecidableEq

/-- The event-id string computed at line 842: str of the eventId value. -/
def eventIdStr (m : Meeting) : String :=
  match m.eventId with
  | none => "None"
  | some s => s

/-- The shape of every meeting record built by fetch_senate_calendar (lines
393-407) and fetch_house_calendar (lines 483-498): the status field is the
literal Scheduled and no meetingStatus field is ever set. -/
def fetcherShape (m : Meeting) : Prop :=
  m.meetingStatus = none ∧ m.status = "Scheduled"

/-- A persisted scheduled-markups record: the two keys detect_markup_changes
reads (status and date; run_tracker always writes both). -/
structure TrackedMarkup where
  status : String
  date : String
  deriving DecidableEq

/-- The four output buckets of detect_markup_changes.  The rescheduled and
canceled buckets carry the old date the source stores on the markup
dictionary before appending it. -/
structure MarkupChanges where
  new : List Meeting
  rescheduled : List (Meeting × String)
  canceled : List (Meeting × String)
  unchanged : List Meeting
  deriving DecidableEq

/-- One iteration of the classification loop of detect_markup_changes (lines
841-879): the status is read from the meetingStatus key with default
Scheduled. -/
def detectStep (tracked_markups : List (String × TrackedMarkup))
    (acc : MarkupChanges) (markup : Meeting) : MarkupChanges :=
  let event_id := eventIdStr markup
  if event_id = "" then acc
  else
    let status := markup.meetingStatus.getD "Scheduled"
    let date_str := markup.date
    match alookup tracked_markups event_id with
    | none =>
      if status = "Scheduled" then { acc with new := acc.new ++ [markup] }
      else if status = "Canceled" then acc
      else { acc with new := acc.new ++ [markup] }
    | some tracked =>
      let old_status := tracked.status
      let old_date := tracked.date
      if status = "Canceled" ∧ old_status ≠ "Canceled" then
        { acc with canceled := acc.canceled ++ [(markup, old_date)] }
      else if (status = "Rescheduled" ∨ status = "Postponed") ∧
          old_status = "Scheduled" then
        { acc with rescheduled := acc.rescheduled ++ [(markup, old_date)] }
      else if status = "Rescheduled" ∧ date_str ≠ old_date then
        { acc with rescheduled := acc.rescheduled ++ [(markup, old_date)] }
      else { acc with unchanged := acc.unchanged ++ [markup] }

/-- The classification loop over the current meetings. -/
def detectAux (tracked : List (String × TrackedMarkup)) :
    List Meeting → MarkupChanges → MarkupChanges
  | [], acc => acc
  | m :: ms, acc => detectAux tracked ms (detectStep tracked acc m)

/-- Embedding of detect_markup_changes (lines 820-891).  The trailing scan
for disappeared markups (lines 883-889) deliberately does nothing and is
omitted. -/
def detect_markup_changes (current_markups : List Meeting)
    (tracked_markups : List (String × TrackedMarkup)) : MarkupChanges :=
  detectAux tracked_markups current_markups ⟨[], [], [], []⟩

/-! Concrete inputs used by counterexamples and witnesses. -/

/-- A concrete stand-in for the Python string hash. -/
def hashZero : String → Int := fun _ => 0

/-- A publish oracle on which every publish call fails. -/
def pubNever : Candidate → Bool := fun _ => false

/-- A publish oracle on which every publish call succeeds. -/
def pubAlways : Candidate → Bool := fun _ => true

/-- A detail-fetch oracle on which every fetch succeeds. -/
def detailsAlways : Candidate → Bool := fun _ => true

/-- A bill whose latest action is a significant House passage. -/
def c1Bill : Bill :=
  ⟨"hr", 471, some ⟨"2026-01-22", "Passed House by the Yeas and Nays: 279 - 141", []⟩⟩

/-- An action carrying a structured recorded vote whose text matches none of
the textual vote patterns. -/
def c6Action : BillAction :=
  ⟨"2026-03-04", "Committee consideration and markup session held", [(25, 0)]⟩

/-- A meeting absent from tracking whose meetingStatus is Canceled. -/
def c2m1 : Meeting := ⟨some "E1", some "Canceled", "Scheduled", "2026-02-10"⟩

/-- A tracked meeting previously Canceled and still Canceled. -/
def c2m2 : Meeting := ⟨some "E2", some "Canceled", "Scheduled", "2026-02-11"⟩

/-- A tracked meeting with unchanged Scheduled status but a changed date. -/
def c2m3 : Meeting := ⟨some "E3", none, "Scheduled", "2026-02-12"⟩

/-- A tracked meeting whose status changed from Postponed to Rescheduled with
the same date. -/
def c2m4 : Meeting := ⟨some "E4", some "Rescheduled", "Scheduled", "2026-02-13"⟩

/-- The tracking map for the C2 counterexample. -/
def c2tracked : List (String × TrackedMarkup) :=
  [("E2", ⟨"Canceled", "2026-02-11"⟩),
   ("E3", ⟨"Scheduled", "2026-01-05"⟩),
   ("E4", ⟨"Postponed", "2026-02-13"⟩)]

/-- A fetcher-shaped meeting whose date differs from its tracked record. -/
def c9Meeting : Meeting := ⟨some "E5", none, "Scheduled", "2026-03-01"⟩

/-- The tracking map for the C9 witness: same event, older date. -/
def c9Tracked : List (String × TrackedMarkup) :=
  [("E5", ⟨"Scheduled", "2026-02-15"⟩)]

/-- A meeting for the C2 amended-claim witness: tracked, now Canceled. -/
def c2wMeeting : Meeting := ⟨some "E9", some "Canceled", "Scheduled", "2026-02-11"⟩

/-- The tracking map for the C2 amended-claim witness. -/
def c2wTracked : List (String × TrackedMarkup) :=
  [("E9", ⟨"Scheduled", "2026-02-01"⟩)]

/-- Candidates with priorities 2, 4, 1, 5, 1 for the C8 witness. -/
def c8w0 : Candidate := ⟨"hr", 1, "hr1", "2026-01-01", "Passed House", 2⟩

/-- See c8w0. -/
def c8w1 : Candidate := ⟨"s", 2, "s2", "2026-01-01", "Cloture motion filed", 4⟩

/-- See c8w0. -/
def c8w2 : Candidate := ⟨"hr", 3, "hr3", "2026-01-01", "Signed by President", 1⟩

/-- See c8w0. -/
def c8w3 : Candidate := ⟨"s", 4, "s4", "2026-01-01", "Referred to committee", 5⟩

/-- See c8w0. -/
def c8w4 : Candidate := ⟨"hr", 5, "hr5", "2026-01-01", "Vetoed by President", 1⟩

/-- A candidate for the C5 witness. -/
def c5Cand : Candidate :=
  ⟨"hr", 9, "hr9", "2026-01-22", "Passed House by the Yeas and Nays: 279 - 141", 2⟩

/-- A 50-character string shared by the two C10 witness texts. -/
def c10Base : String := "01234567890123456789012345678901234567890123456789"

/-- First C10 witness text: the shared 50 characters and a distinct tail. -/
def c10Text1 : String := c10Base ++ " tail one"

/-- Second C10 witness text: same first 50 characters, different tail. -/
def c10Text2 : String := c10Base ++ " tail two"

/-- A candidate whose action text is c10Text2. -/
def c10Cand : Candidate := ⟨"hr", 12, "hr12", "2026-02-02", c10Text2, 5⟩

/-- The candidates for the C1 amended-claim witness: the first publish fails,
the second succeeds. -/
def c1wFail : Candidate :=
  ⟨"hr", 471, "hr471", "2026-01-22", "Passed House by the Yeas and Nays: 279 - 141", 2⟩

/-- See c1wFail. -/
def c1wOk : Candidate :=
  ⟨"s", 100, "s100", "2026-01-22", "Passed Senate with an amendment by Voice Vote", 2⟩

/-- A publish oracle failing exactly on House bills, for the C1 witness. -/
def pubSenateOnly : Candidate → Bool := fun c => c.billType == "s"

end BillTracker

namespace BillTracker

/-! Theorems.  Helper lemmas come first; each claim has exactly one theorem,
with a witness or counterexample where required. -/

/-- Helper: a filter on one priority value commutes with the stable insertion,
the key stability fact about the candidate sort. -/
theorem filter_insertByPriority (c : Candidate) (l : List Candidate) (p : Nat) :
    (insertByPriority c l).filter (fun d => d.priority == p) =
      if c.priority == p then c :: l.filter (fun d => d.priority == p)
      else l.filter (fun d => d.priority == p) := by
  induction l with
  | nil => by_cases hcp : c.priority == p <;> simp [insertByPriority, hcp]
  | cons b bs ih =>
    by_cases hcb : c.priority ≤ b.priority
    · by_cases hbp : b.priority == p <;> by_cases hcp : c.priority == p <;>
        simp [insertByPriority, hcb, List.filter_cons, hbp, hcp]
    · by_cases hbp : b.priority == p <;> by_cases hcp : c.priority == p
      · exfalso
        have hb : b.priority = p := beq_iff_eq.mp hbp
        have hc : c.priority = p := beq_iff_eq.mp hcp
        omega
      · simp [insertByPriority, hcb, List.filter_cons, hbp, hcp, ih]
      · simp [insertByPriority, hcb, List.filter_cons, hbp, hcp, ih]
      · simp [insertByPriority, hcb, List.filter_cons, hbp, hcp, ih]

/-- Claim C8: candidates are posted in ascending priority-rank order with the
sort stable: any candidate list with ranks 2, 4, 1, 5, 1 in fetch order sorts
to the order 1, 1, 2, 4, 5 with the two rank-1 candidates keeping their fetch
order, and in general candidates of equal rank keep their relative order. -/
theorem C8_priority_sort_stable :
    (∀ a b c d e : Candidate,
        a.priority = 2 → b.priority = 4 → c.priority = 1 → d.priority = 5 →
        e.priority = 1 →
        sortCandidates [a, b, c, d, e] = [c, e, a, b, d]) ∧
    (∀ (cs : List Candidate) (p : Nat),
        (sortCandidates cs).filter (fun x => x.priority == p) =
          cs.filter (fun x => x.priority == p)) := by
  constructor
  · intro a b c d e ha hb hc hd he
    simp [sortCandidates, insertByPriority, ha, hb, hc, hd, he]
  · intro cs p
    induction cs with
    | nil => rfl
    | cons x xs ih =>
      rw [sortCandidates, filter_insertByPriority, List.filter_cons, ih]

/-- Witness for C8 at concrete candidates with ranks 2, 4, 1, 5, 1. -/
theorem C8_witness :
    sortCandidates [c8w0, c8w1, c8w2, c8w3, c8w4] =
      [c8w2, c8w4, c8w0, c8w1, c8w3] :=
  C8_priority_sort_stable.1 c8w0 c8w1 c8w2 c8w3 c8w4 rfl rfl rfl rfl rfl

/-- Claim C3 is false on the code: the final keyword set of
is_significant_action contains no tabling keyword, so the motion-to-table
text is not significant; and a text matching the motion-to-reconsider phrase
is significant whenever it also contains another keyword such as passed, so
the carve-out half fails as a universal statement as well. -/
theorem C3_counterexample :
    is_significant_action "On motion to table the measure Agreed to" = false ∧
    is_significant_action "Passed House; motion to reconsider laid on the table" = true := by
  decide

/-- Claim C3 (amended): the final revision of the significance classifier has
no tabling keyword and no motion-to-reconsider carve-out: both the
motion-to-table text and a motion-to-reconsider text without any significance
keyword are classified not significant. -/
theorem C3_amended :
    is_significant_action "On motion to table the measure Agreed to" = false ∧
    is_significant_action
      "Motion to reconsider laid on the table. Agreed to without objection." = false := by
  decide

/-- Claim C7: the claim is right and the code is wrong: for a cloture-failure
text the substring invoked occurs inside not invoked, so create_action_label
returns the success label Cloture Invoked and get_whats_next returns the
success projection Senate floor vote; the code does not distinguish cloture
failure from success. -/
theorem C7_cloture_failure_mislabeled :
    create_action_label "Cloture on the bill not invoked" none = "Cloture Invoked" ∧
    get_whats_next "Cloture on the bill not invoked" [] none = "Senate floor vote" := by
  decide

/-- Claim C6 is false on the code: extract_vote_from_action never consults
the structured recorded-vote data of an action; on an action carrying a
structured recorded vote whose text matches no textual pattern it reports no
vote at all. -/
theorem C6_counterexample :
    c6Action.recordedVotes ≠ [] ∧ extract_vote_from_action c6Action = none := by
  decide

/-- Claim C2 is false on the code at four inputs: an event absent from
tracking with status Canceled is dropped rather than classified new; a
tracked event that was already Canceled and is still Canceled is unchanged
rather than canceled; a tracked event with unchanged status Scheduled and a
changed date is unchanged rather than rescheduled; and a tracked event whose
status changed Postponed to Rescheduled with the same date is unchanged
rather than rescheduled. -/
theorem C2_counterexample :
    detect_markup_changes [c2m1, c2m2, c2m3, c2m4] c2tracked =
      ⟨[], [], [], [c2m2, c2m3, c2m4]⟩ := by
  decide

/-- Claim C1 is false on the code: with a single candidate bill whose publish
call fails, the post is indeed not recorded as posted and nothing is
published, but the bill-status snapshot is still updated with the failed
action (lines 1703-1707 run after a failed post_to_x as well), so running the
selection again over the same bill list finds no candidate: the post is not
retried next run. -/
theorem C1_counterexample :
    (runPart1 hashZero pubNever detailsAlways true 5 [c1Bill] [] []).published = [] ∧
    (runPart1 hashZero pubNever detailsAlways true 5 [c1Bill] [] []).posted = [] ∧
    (selectCandidates [c1Bill]
        (runPart1 hashZero pubNever detailsAlways true 5 [c1Bill] [] []).status).candidates =
      [] := by
  decide


/-- Claim C4: for the latest action text of a recorded House passage with the
tally 279 - 141 on a bill whose prior history contains no Senate passage, the
label is Passed House (279-141), the projected next step is Senate vote, the
action is significant, and the priority rank is 2. -/
theorem C4_passed_house_scenario (hist : List BillAction)
    (hno : ∀ a ∈ hist, ¬(pyContains (pyLower a.text) "passed" = true ∧
        pyContains (pyLower a.text) "senate" = true)) :
    create_action_label "Passed House by the Yeas and Nays: 279 - 141"
        (extract_vote_from_action
          ⟨"2026-01-22", "Passed House by the Yeas and Nays: 279 - 141", []⟩) =
      "Passed House (279-141)" ∧
    get_whats_next "Passed House by the Yeas and Nays: 279 - 141" hist none =
      "Senate vote" ∧
    is_significant_action "Passed House by the Yeas and Nays: 279 - 141" = true ∧
    get_action_priority "Passed House by the Yeas and Nays: 279 - 141" = 2 := by
  have hps : passedSenateIn hist = false := by
    unfold passedSenateIn
    rw [List.any_eq_false]
    intro a ha
    rw [Bool.and_eq_true]
    exact hno a ha
  refine ⟨by decide, ?_, by decide, by decide⟩
  have h2 : get_whats_next "Passed House by the Yeas and Nays: 279 - 141" hist none =
      if passedSenateIn hist = true then "President\x27s signature"
      else "Senate vote" := rfl
  rw [h2, hps]
  rfl

/-- Witness for C4 with the empty prior history. -/
theorem C4_witness :
    create_action_label "Passed House by the Yeas and Nays: 279 - 141"
        (extract_vote_from_action
          ⟨"2026-01-22", "Passed House by the Yeas and Nays: 279 - 141", []⟩) =
      "Passed House (279-141)" ∧
    get_whats_next "Passed House by the Yeas and Nays: 279 - 141" [] none =
      "Senate vote" ∧
    is_significant_action "Passed House by the Yeas and Nays: 279 - 141" = true ∧
    get_action_priority "Passed House by the Yeas and Nays: 279 - 141" = 2 :=
  C4_passed_house_scenario [] (by intro a ha; cases ha)

/-- Claim C6 (amended): vote extraction ignores structured recorded-vote data
entirely; for every action the free text is pattern-matched for the numeric
tally regex first, otherwise voice vote is detected, otherwise unanimous
consent, otherwise no vote is reported. -/
theorem C6_amended (a : BillAction) :
    extract_vote_from_action a = extract_vote_from_action ⟨a.actionDate, a.text, []⟩ ∧
    (∀ g1 g2, voteSearch a.text.data = some (g1, g2) →
      extract_vote_from_action a =
        some ("(" ++ String.mk g1 ++ "-" ++ String.mk g2 ++ ")")) ∧
    (voteSearch a.text.data = none →
      pyContains (pyLower a.text) "voice vote" = true →
      extract_vote_from_action a = some "(voice vote)") ∧
    (voteSearch a.text.data = none →
      pyContains (pyLower a.text) "voice vote" = false →
      pyContains (pyLower a.text) "unanimous consent" = true →
      extract_vote_from_action a = some "(unanimous consent)") ∧
    (voteSearch a.text.data = none →
      pyContains (pyLower a.text) "voice vote" = false →
      pyContains (pyLower a.text) "unanimous consent" = false →
      extract_vote_from_action a = none) := by
  refine ⟨rfl, ?_, ?_, ?_, ?_⟩
  · intro g1 g2 hs
    simp only [extract_vote_from_action]
    rw [hs]
  · intro hs hv
    simp only [extract_vote_from_action]
    rw [hs]
    simp [hv]
  · intro hs hv hu
    simp only [extract_vote_from_action]
    rw [hs]
    simp [hv, hu]
  · intro hs hv hu
    simp only [extract_vote_from_action]
    rw [hs]
    simp [hv, hu]

/-- Witness for C6 (amended) at a concrete tally text. -/
theorem C6_amended_witness :
    extract_vote_from_action
        ⟨"2026-01-22", "On passage Passed 219 - 210", [(219, 210)]⟩ =
      some "(219-210)" := by
  have h := (C6_amended ⟨"2026-01-22", "On passage Passed 219 - 210", [(219, 210)]⟩).2.1
  have h2 := h "219".data "210".data (by decide)
  exact h2.trans (by decide)

/-- Helper: with the meetingStatus field unset, one classification step
leaves the canceled and rescheduled buckets untouched. -/
theorem detectStep_none_keeps (tracked : List (String × TrackedMarkup))
    (acc : MarkupChanges) (m : Meeting) (h : m.meetingStatus = none) :
    (detectStep tracked acc m).canceled = acc.canceled ∧
    (detectStep tracked acc m).rescheduled = acc.rescheduled := by
  simp only [detectStep, h, Option.getD_none]
  by_cases hid : eventIdStr m = ""
  · rw [if_pos hid]
    exact ⟨rfl, rfl⟩
  · rw [if_neg hid]
    cases halk : alookup tracked (eventIdStr m) with
    | none => simp
    | some tr => simp

/-- Helper: one classification step never removes a meeting from the
unchanged bucket. -/
theorem detectStep_unchanged_mono (tracked : List (String × TrackedMarkup))
    (acc : MarkupChanges) (m x : Meeting) (hx : x ∈ acc.unchanged) :
    x ∈ (detectStep tracked acc m).unchanged := by
  simp only [detectStep]
  split
  · exact hx
  · split
    · split_ifs <;> simp [hx]
    · split_ifs <;> simp [hx]

/-- Helper: with the meetingStatus field unset, a meeting whose id is already
tracked is put into the unchanged bucket by its classification step. -/
theorem detectStep_tracked_unchanged (tracked : List (String × TrackedMarkup))
    (acc : MarkupChanges) (m : Meeting) (h : m.meetingStatus = none)
    (hid : eventIdStr m ≠ "") (tr : TrackedMarkup)
    (halk : alookup tracked (eventIdStr m) = some tr) :
    m ∈ (detectStep tracked acc m).unchanged := by
  simp only [detectStep, h, halk, Option.getD_none]
  rw [if_neg hid]
  simp

/-- Helper: the canceled and rescheduled buckets survive the whole
classification loop when every current meeting has meetingStatus unset. -/
theorem detectAux_none_keeps (tracked : List (String × TrackedMarkup))
    (ms : List Meeting) (acc : MarkupChanges)
    (h : ∀ m ∈ ms, m.meetingStatus = none) :
    (detectAux tracked ms acc).canceled = acc.canceled ∧
    (detectAux tracked ms acc).rescheduled = acc.rescheduled := by
  induction ms generalizing acc with
  | nil => exact ⟨rfl, rfl⟩
  | cons m ms ih =>
    have hm := h m (List.mem_cons_self m ms)
    have hrest : ∀ x ∈ ms, x.meetingStatus = none :=
      fun x hx => h x (List.mem_cons_of_mem m hx)
    have hstep := detectStep_none_keeps tracked acc m hm
    have hrec := ih (detectStep tracked acc m) hrest
    exact ⟨hrec.1.trans hstep.1, hrec.2.trans hstep.2⟩

/-- Helper: the unchanged bucket only grows over the classification loop. -/
theorem detectAux_unchanged_mono (tracked : List (String × TrackedMarkup))
    (ms : List Meeting) (acc : MarkupChanges) (x : Meeting)
    (hx : x ∈ acc.unchanged) : x ∈ (detectAux tracked ms acc).unchanged := by
  induction ms generalizing acc with
  | nil => exact hx
  | cons m ms ih =>
    exact ih (detectStep tracked acc m) (detectStep_unchanged_mono tracked acc m x hx)

/-- Helper: over the classification loop, a meeting of the list with
meetingStatus unset and a tracked id ends up in the unchanged bucket. -/
theorem detectAux_tracked_unchanged (tracked : List (String × TrackedMarkup))
    (ms : List Meeting) (m : Meeting) (hid : eventIdStr m ≠ "")
    (tr : TrackedMarkup) (halk : alookup tracked (eventIdStr m) = some tr) :
    ∀ acc : MarkupChanges, (∀ x ∈ ms, x.meetingStatus = none) → m ∈ ms →
      m ∈ (detectAux tracked ms acc).unchanged := by
  induction ms with
  | nil =>
    intro acc _ hm
    cases hm
  | cons m0 ms ih =>
    intro acc hall hm
    rcases List.mem_cons.mp hm with heq | hmem
    · subst heq
      exact detectAux_unchanged_mono tracked ms (detectStep tracked acc m) m
        (detectStep_tracked_unchanged tracked acc m
          (hall m (List.mem_cons_self m ms)) hid tr halk)
    · exact ih (detectStep tracked acc m0)
        (fun x hx => hall x (List.mem_cons_of_mem m0 hx)) hmem

/-- Claim C9: for meetings shaped as the Senate XML and House HTML fetchers
build them (a status field set to Scheduled and no meetingStatus field),
detect_markup_changes never classifies anything as canceled or rescheduled,
and every current meeting whose id is already tracked lands in the unchanged
bucket, even when its date changed. -/
theorem C9_fetched_meetings_unchanged (current : List Meeting)
    (tracked : List (String × TrackedMarkup))
    (hshape : ∀ m ∈ current, fetcherShape m) :
    (detect_markup_changes current tracked).canceled = [] ∧
    (detect_markup_changes current tracked).rescheduled = [] ∧
    ∀ m ∈ current, eventIdStr m ≠ "" →
      ∀ tr, alookup tracked (eventIdStr m) = some tr →
        m ∈ (detect_markup_changes current tracked).unchanged := by
  have hstat : ∀ m ∈ current, m.meetingStatus = none :=
    fun m hm => (hshape m hm).1
  have hkeep := detectAux_none_keeps tracked current ⟨[], [], [], []⟩ hstat
  exact ⟨hkeep.1, hkeep.2, fun m hm hid tr halk =>
    detectAux_tracked_unchanged tracked current m hid tr halk ⟨[], [], [], []⟩ hstat hm⟩

/-- Witness for C9: a fetcher-shaped meeting whose tracked record has an
older date is classified unchanged and nothing is canceled or rescheduled. -/
theorem C9_witness :
    (detect_markup_changes [c9Meeting] c9Tracked).canceled = [] ∧
    (detect_markup_changes [c9Meeting] c9Tracked).rescheduled = [] ∧
    c9Meeting ∈ (detect_markup_changes [c9Meeting] c9Tracked).unchanged := by
  have h := C9_fetched_meetings_unchanged [c9Meeting] c9Tracked
    (by intro m hm; rw [List.mem_singleton] at hm; subst hm; exact ⟨rfl, rfl⟩)
  exact ⟨h.1, h.2.1, h.2.2 c9Meeting (List.mem_singleton_self _) (by decide)
    ⟨"Scheduled", "2026-02-15"⟩ (by decide)⟩


/-- Helper: on a single-meeting list the classifier is one step from the
empty buckets. -/
theorem detect_single (m : Meeting) (t : List (String × TrackedMarkup)) :
    detect_markup_changes [m] t = detectStep t ⟨[], [], [], []⟩ m := rfl

/-- Claim C2 (amended): for every current meeting with a nonempty id and any
tracking map, the classifier reads the meetingStatus key with default
Scheduled and proceeds as follows.  Absent from tracking: classified new,
unless the status is Canceled, in which case the meeting is dropped without
any classification.  Present in tracking: canceled when the status is
Canceled and the old status was not Canceled; rescheduled when the status is
Rescheduled or Postponed and the old status was exactly Scheduled, or when
the status is Rescheduled and the date changed; otherwise unchanged — in
particular an unchanged Scheduled status with a changed date is classified
unchanged, not rescheduled. -/
theorem C2_amended (m : Meeting) (t : List (String × TrackedMarkup))
    (hid : eventIdStr m ≠ "") :
    (alookup t (eventIdStr m) = none →
      (m.meetingStatus.getD "Scheduled" = "Canceled" →
        detect_markup_changes [m] t = ⟨[], [], [], []⟩) ∧
      (m.meetingStatus.getD "Scheduled" ≠ "Canceled" →
        detect_markup_changes [m] t = ⟨[m], [], [], []⟩)) ∧
    (∀ tr, alookup t (eventIdStr m) = some tr →
      (m.meetingStatus.getD "Scheduled" = "Canceled" → tr.status ≠ "Canceled" →
        detect_markup_changes [m] t = ⟨[], [], [(m, tr.date)], []⟩) ∧
      ((m.meetingStatus.getD "Scheduled" = "Rescheduled" ∨
          m.meetingStatus.getD "Scheduled" = "Postponed") →
        tr.status = "Scheduled" →
        detect_markup_changes [m] t = ⟨[], [(m, tr.date)], [], []⟩) ∧
      (m.meetingStatus.getD "Scheduled" = "Rescheduled" → tr.status ≠ "Scheduled" →
        m.date ≠ tr.date →
        detect_markup_changes [m] t = ⟨[], [(m, tr.date)], [], []⟩) ∧
      (¬(m.meetingStatus.getD "Scheduled" = "Canceled" ∧ tr.status ≠ "Canceled") →
       ¬((m.meetingStatus.getD "Scheduled" = "Rescheduled" ∨
            m.meetingStatus.getD "Scheduled" = "Postponed") ∧
          tr.status = "Scheduled") →
       ¬(m.meetingStatus.getD "Scheduled" = "Rescheduled" ∧ m.date ≠ tr.date) →
        detect_markup_changes [m] t = ⟨[], [], [], [m]⟩)) := by
  rw [detect_single]
  simp only [detectStep]
  rw [if_neg hid]
  constructor
  · intro hnone
    simp only [hnone]
    constructor
    · intro hc
      simp [hc]
    · intro hnc
      by_cases hs : m.meetingStatus.getD "Scheduled" = "Scheduled"
      · simp [hs]
      · simp [hs, hnc]
  · intro tr htr
    simp only [htr]
    refine ⟨?_, ?_, ?_, ?_⟩
    · intro hc hnc
      simp [hc, hnc]
    · intro hrp hsch
      rcases hrp with h | h <;> simp [h, hsch]
    · intro hr hns hd
      simp [hr, hns, hd]
    · intro h1 h2 h3
      simp [h1, h2, h3]

/-- Witness for C2 (amended): a tracked Scheduled meeting now Canceled is
classified canceled with its old date. -/
theorem C2_amended_witness :
    detect_markup_changes [c2wMeeting] c2wTracked =
      ⟨[], [], [(c2wMeeting, "2026-02-01")], []⟩ := by
  have h := C2_amended c2wMeeting c2wTracked (by decide)
  exact (h.2 ⟨"Scheduled", "2026-02-01"⟩ (by decide)).1 (by decide) (by decide)

/-- Helper: looking up the key just assigned in an association list yields
the assigned record. -/
theorem alookup_aupdate_self {α : Type} (l : List (String × α)) (k : String)
    (v : α) : alookup (aupdate l k v) k = some v := by
  induction l with
  | nil => simp [aupdate, alookup]
  | cons p rest ih =>
    obtain ⟨pk, pv⟩ := p
    by_cases h : pk = k
    · simp [aupdate, alookup, h]
    · simp [aupdate, alookup, h, ih]

/-- Helper: the posted key set only grows across one posting-loop step. -/
theorem procStep_posted_mono (pyHash : String → Int)
    (pub details : Candidate → Bool) (ptw : Bool) (maxP : Nat) (st : ProcState)
    (c : Candidate) (k : String) (hk : k ∈ st.posted) :
    k ∈ (procStep pyHash pub details ptw maxP st c).posted := by
  simp only [procStep]
  split_ifs <;> simp [hk]

/-- Helper: a key already posted before a step is not added to the rendered
or published lists by that step. -/
theorem procStep_no_new_for_posted (pyHash : String → Int)
    (pub details : Candidate → Bool) (ptw : Bool) (maxP : Nat) (st : ProcState)
    (c : Candidate) (k : String) (hk : k ∈ st.posted) :
    (k ∉ st.rendered → k ∉ (procStep pyHash pub details ptw maxP st c).rendered) ∧
    (k ∉ st.published → k ∉ (procStep pyHash pub details ptw maxP st c).published) := by
  have hne : candidateActionId pyHash c ∈ st.posted ∨
      k ≠ candidateActionId pyHash c := by
    by_cases hmem : candidateActionId pyHash c ∈ st.posted
    · exact Or.inl hmem
    · exact Or.inr (fun he => hmem (he ▸ hk))
  simp only [procStep]
  split_ifs with h1 h2 h3 h4 h5 <;>
    refine ⟨fun hn hcon => ?_, fun hn hcon => ?_⟩ <;>
    first
      | exact hn hcon
      | (rcases List.mem_append.mp hcon with hx | hx
         · exact hn hx
         · exact (hne.resolve_left h2) (List.mem_singleton.mp hx))

/-- Helper: a key already in the posted set when the posting loop starts is
never rendered or published by the loop. -/
theorem processCandidates_no_repost (pyHash : String → Int)
    (pub details : Candidate → Bool) (ptw : Bool) (maxP : Nat)
    (cands : List Candidate) :
    ∀ st : ProcState, ∀ k, k ∈ st.posted → k ∉ st.rendered → k ∉ st.published →
      k ∉ (processCandidates pyHash pub details ptw maxP cands st).rendered ∧
      k ∉ (processCandidates pyHash pub details ptw maxP cands st).published := by
  induction cands with
  | nil =>
    intro st k _ h2 h3
    exact ⟨h2, h3⟩
  | cons c cs ih =>
    intro st k h1 h2 h3
    have hmono := procStep_posted_mono pyHash pub details ptw maxP st c k h1
    have hkeep := procStep_no_new_for_posted pyHash pub details ptw maxP st c k h1
    exact ih (procStep pyHash pub details ptw maxP st c) k hmono
      (hkeep.1 h2) (hkeep.2 h3)

/-- Claim C5: the dedup-key generator is deterministic on the (bill type and
number, action date, action text) triple, and for every key already present
in the posted-items map when the posting loop starts, the loop never renders
a tweet for that key nor publishes it. -/
theorem C5_dedup_idempotent_no_repost :
    (∀ (pyHash : String → Int) (bt : String) (n : Nat) (a b : BillAction),
        a.actionDate = b.actionDate → a.text = b.text →
        generate_action_id pyHash bt n a = generate_action_id pyHash bt n b) ∧
    (∀ (pyHash : String → Int) (pub details : Candidate → Bool) (ptw : Bool)
        (maxP : Nat) (cands : List Candidate) (posted : List String)
        (status : List (String × BillStatus)) (k : String), k ∈ posted →
        k ∉ (processCandidates pyHash pub details ptw maxP cands
              ⟨posted, status, 0, [], []⟩).rendered ∧
        k ∉ (processCandidates pyHash pub details ptw maxP cands
              ⟨posted, status, 0, [], []⟩).published) := by
  constructor
  · intro pyHash bt n a b hd ht
    simp only [generate_action_id, hd, ht]
  · intro pyHash pub details ptw maxP cands posted status k hk
    exact processCandidates_no_repost pyHash pub details ptw maxP cands
      ⟨posted, status, 0, [], []⟩ k hk (by simp) (by simp)

/-- Witness for C5: key determinism at a concrete triple, and a run whose
posted map already holds the key of its only candidate publishes nothing
under that key. -/
theorem C5_witness :
    generate_action_id hashZero "hr" 9
        ⟨"2026-01-22", "Passed House by the Yeas and Nays: 279 - 141", []⟩ =
      generate_action_id hashZero "hr" 9
        ⟨"2026-01-22", "Passed House by the Yeas and Nays: 279 - 141", [(279, 141)]⟩ ∧
    "hr9_2026-01-22_0" ∉
      (processCandidates hashZero pubAlways detailsAlways true 5 [c5Cand]
        ⟨["hr9_2026-01-22_0"], [], 0, [], []⟩).published :=
  ⟨C5_dedup_idempotent_no_repost.1 hashZero "hr" 9 _ _ rfl rfl,
   (C5_dedup_idempotent_no_repost.2 hashZero pubAlways detailsAlways true 5 [c5Cand]
      ["hr9_2026-01-22_0"] [] "hr9_2026-01-22_0" (by simp)).2⟩


/-- Claim C10: the dedup key depends only on the bill id, the action date and
the first 50 characters of the action text: two texts agreeing on their first
50 characters give equal keys regardless of their tails or structured vote
data, and once such a key is in the posted-items map the posting loop never
publishes the second action, because its key is the recorded one. -/
theorem C10_truncated_key_collision :
    (∀ (pyHash : String → Int) (bt : String) (n : Nat) (d : String)
        (rv1 rv2 : List (Nat × Nat)) (t1 t2 : String),
        pyTake 50 t1 = pyTake 50 t2 →
        generate_action_id pyHash bt n ⟨d, t1, rv1⟩ =
          generate_action_id pyHash bt n ⟨d, t2, rv2⟩) ∧
    (∀ (pyHash : String → Int) (pub details : Candidate → Bool) (ptw : Bool)
        (maxP : Nat) (cands : List Candidate) (posted : List String)
        (status : List (String × BillStatus)) (t1 : String) (c2 : Candidate),
        pyTake 50 t1 = pyTake 50 c2.actionText →
        generate_action_id pyHash c2.billType c2.billNumber
            ⟨c2.actionDate, t1, []⟩ ∈ posted →
        candidateActionId pyHash c2 ∉
          (processCandidates pyHash pub details ptw maxP cands
            ⟨posted, status, 0, [], []⟩).published) := by
  have key : ∀ (pyHash : String → Int) (bt : String) (n : Nat) (d : String)
      (rv1 rv2 : List (Nat × Nat)) (t1 t2 : String),
      pyTake 50 t1 = pyTake 50 t2 →
      generate_action_id pyHash bt n ⟨d, t1, rv1⟩ =
        generate_action_id pyHash bt n ⟨d, t2, rv2⟩ := by
    intro pyHash bt n d rv1 rv2 t1 t2 h
    simp only [generate_action_id, h]
  refine ⟨key, ?_⟩
  intro pyHash pub details ptw maxP cands posted status t1 c2 h50 hmem
  have hkey : candidateActionId pyHash c2 =
      generate_action_id pyHash c2.billType c2.billNumber ⟨c2.actionDate, t1, []⟩ := by
    unfold candidateActionId
    exact key pyHash c2.billType c2.billNumber c2.actionDate [] []
      c2.actionText t1 h50.symm
  rw [hkey]
  exact (processCandidates_no_repost pyHash pub details ptw maxP cands
    ⟨posted, status, 0, [], []⟩ _ hmem (by simp) (by simp)).2

/-- Witness for C10 at two concrete texts sharing their first 50 characters
but with different tails. -/
theorem C10_witness :
    generate_action_id hashZero "hr" 12 ⟨"2026-02-02", c10Text1, []⟩ =
      generate_action_id hashZero "hr" 12 ⟨"2026-02-02", c10Text2, [(1, 2)]⟩ ∧
    candidateActionId hashZero c10Cand ∉
      (processCandidates hashZero pubAlways detailsAlways true 5 [c10Cand]
        ⟨[generate_action_id hashZero "hr" 12 ⟨"2026-02-02", c10Text1, []⟩],
         [], 0, [], []⟩).published :=
  ⟨C10_truncated_key_collision.1 hashZero "hr" 12 "2026-02-02" [] [(1, 2)]
      c10Text1 c10Text2 (by decide),
   C10_truncated_key_collision.2 hashZero pubAlways detailsAlways true 5 [c10Cand]
      [generate_action_id hashZero "hr" 12 ⟨"2026-02-02", c10Text1, []⟩] []
      c10Text1 c10Cand (by decide) (by decide)⟩

/-- Helper: one selection step on an unseen significant bill whose stored
snapshot differs from its latest action appends exactly one candidate and
leaves the status map untouched. -/
theorem selectStep_candidate (st : SelState) (b : Bill) (la : BillAction)
    (hla : b.latestAction = some la) (htype : pyLower b.type ≠ "")
    (hnum : b.number ≠ 0) (htext : la.text ≠ "")
    (hsig : is_significant_action la.text = true)
    (hseen : pyLower b.type ++ toString b.number ∉ st.seen)
    (hch : ¬(la.actionDate =
        ((alookup st.status (pyLower b.type ++ toString b.number)).getD
          ⟨"", ""⟩).actionDate ∧
      la.text =
        ((alookup st.status (pyLower b.type ++ toString b.number)).getD
          ⟨"", ""⟩).actionText)) :
    selectStep st b = { st with
      seen := (pyLower b.type ++ toString b.number) :: st.seen,
      candidates := st.candidates ++
        [⟨pyLower b.type, b.number, pyLower b.type ++ toString b.number,
          la.actionDate, la.text, get_action_priority la.text⟩] } := by
  simp only [selectStep, hla]
  rw [if_neg (fun hc => hc.elim htype hnum), if_neg hseen, if_neg htext,
    if_neg (by simp [hsig]), if_neg hch]

/-- Helper: one selection step on an unseen significant bill whose stored
snapshot equals its latest action adds no candidate. -/
theorem selectStep_skip (st : SelState) (b : Bill) (la : BillAction)
    (hla : b.latestAction = some la) (htype : pyLower b.type ≠ "")
    (hnum : b.number ≠ 0) (htext : la.text ≠ "")
    (hsig : is_significant_action la.text = true)
    (hseen : pyLower b.type ++ toString b.number ∉ st.seen)
    (heq : la.actionDate =
        ((alookup st.status (pyLower b.type ++ toString b.number)).getD
          ⟨"", ""⟩).actionDate ∧
      la.text =
        ((alookup st.status (pyLower b.type ++ toString b.number)).getD
          ⟨"", ""⟩).actionText) :
    selectStep st b =
      { st with seen := (pyLower b.type ++ toString b.number) :: st.seen } := by
  simp only [selectStep, hla]
  rw [if_neg (fun hc => hc.elim htype hnum), if_neg hseen, if_neg htext,
    if_neg (by simp [hsig]), if_pos heq]

/-- Helper: a posting step whose publish call fails publishes nothing and
leaves the posted set and count unchanged, yet still assigns the bill-status
entry; the same holds when the key was already posted. -/
theorem procStep_pub_false (pyHash : String → Int)
    (pub details : Candidate → Bool) (maxP : Nat) (st : ProcState)
    (c : Candidate) (hnotfull : ¬ maxP ≤ st.made) (hpub : pub c = false)
    (hdet : details c = true) :
    (procStep pyHash pub details true maxP st c).posted = st.posted ∧
    (procStep pyHash pub details true maxP st c).published = st.published ∧
    (procStep pyHash pub details true maxP st c).made = st.made ∧
    (procStep pyHash pub details true maxP st c).status =
      aupdate st.status c.bill_key ⟨c.actionDate, c.actionText⟩ := by
  simp only [procStep]
  rw [if_neg hnotfull]
  by_cases hmem : candidateActionId pyHash c ∈ st.posted
  · rw [if_pos hmem]
    exact ⟨rfl, rfl, rfl, rfl⟩
  · rw [if_neg hmem, if_neg (by simp [hdet]), if_pos trivial, if_neg (by simp [hpub])]
    exact ⟨rfl, rfl, rfl, rfl⟩

/-- Helper: a posting step with a fresh key and a successful publish call
appends the key to the published list. -/
theorem procStep_pub_true (pyHash : String → Int)
    (pub details : Candidate → Bool) (maxP : Nat) (st : ProcState)
    (c : Candidate) (hnotfull : ¬ maxP ≤ st.made)
    (hmem : candidateActionId pyHash c ∉ st.posted) (hpub : pub c = true)
    (hdet : details c = true) :
    (procStep pyHash pub details true maxP st c).published =
      st.published ++ [candidateActionId pyHash c] := by
  simp only [procStep]
  rw [if_neg hnotfull, if_neg hmem, if_neg (by simp [hdet]), if_pos trivial,
    if_pos hpub]

/-- Claim C1 (amended): when a publish call errors, the post is not recorded
as posted and nothing is published under it, and the run continues to the
next candidate (a later candidate with a working publish call is still
published); however the bill-status snapshot is updated with the failed
action anyway, so the next run does not identify the same action as a
candidate again: the post is not retried. -/
theorem C1_amended :
    (∀ (pyHash : String → Int) (b : Bill) (la : BillAction)
        (posted : List String) (status : List (String × BillStatus)),
      b.latestAction = some la →
      pyLower b.type ≠ "" → b.number ≠ 0 → la.text ≠ "" →
      is_significant_action la.text = true →
      ¬(la.actionDate =
          ((alookup status (pyLower b.type ++ toString b.number)).getD
            ⟨"", ""⟩).actionDate ∧
        la.text =
          ((alookup status (pyLower b.type ++ toString b.number)).getD
            ⟨"", ""⟩).actionText) →
      (runPart1 pyHash (fun _ => false) (fun _ => true) true 5 [b]
          posted status).published = [] ∧
      (runPart1 pyHash (fun _ => false) (fun _ => true) true 5 [b]
          posted status).posted = posted ∧
      alookup (runPart1 pyHash (fun _ => false) (fun _ => true) true 5 [b]
          posted status).status (pyLower b.type ++ toString b.number) =
        some ⟨la.actionDate, la.text⟩ ∧
      (selectCandidates [b]
          (runPart1 pyHash (fun _ => false) (fun _ => true) true 5 [b]
            posted status).status).candidates = []) ∧
    (∀ (pyHash : String → Int) (pub details : Candidate → Bool)
        (c c2 : Candidate) (posted : List String)
        (status : List (String × BillStatus)),
      pub c = false → details c = true → pub c2 = true → details c2 = true →
      candidateActionId pyHash c ∉ posted →
      candidateActionId pyHash c2 ∉ posted →
      (processCandidates pyHash pub details true 5 [c, c2]
          ⟨posted, status, 0, [], []⟩).published =
        [candidateActionId pyHash c2]) := by
  constructor
  · intro pyHash b la posted status hla htype hnum htext hsig hch
    have hsel := selectStep_candidate ⟨[], [], status⟩ b la hla htype hnum htext
      hsig (List.not_mem_nil _) hch
    have hselval : selectCandidates [b] status =
        ⟨[pyLower b.type ++ toString b.number],
         [⟨pyLower b.type, b.number, pyLower b.type ++ toString b.number,
           la.actionDate, la.text, get_action_priority la.text⟩], status⟩ := by
      show selectStep ⟨[], [], status⟩ b = _
      rw [hsel]
      rfl
    have hrun : runPart1 pyHash (fun _ => false) (fun _ => true) true 5 [b]
        posted status =
        procStep pyHash (fun _ => false) (fun _ => true) true 5
          ⟨posted, status, 0, [], []⟩
          ⟨pyLower b.type, b.number, pyLower b.type ++ toString b.number,
            la.actionDate, la.text, get_action_priority la.text⟩ := by
      simp only [runPart1, hselval]
      rfl
    have hps := procStep_pub_false pyHash (fun _ => false) (fun _ => true) 5
      ⟨posted, status, 0, [], []⟩
      ⟨pyLower b.type, b.number, pyLower b.type ++ toString b.number,
        la.actionDate, la.text, get_action_priority la.text⟩
      (by show ¬ (5 : Nat) ≤ 0; decide) rfl rfl
    have hlook : alookup (runPart1 pyHash (fun _ => false) (fun _ => true) true 5 [b]
        posted status).status (pyLower b.type ++ toString b.number) =
        some ⟨la.actionDate, la.text⟩ := by
      rw [hrun, hps.2.2.2]
      exact alookup_aupdate_self status _ _
    refine ⟨?_, ?_, hlook, ?_⟩
    · rw [hrun]
      exact hps.2.1
    · rw [hrun]
      exact hps.1
    · have hresel := selectStep_skip
        ⟨[], [], (runPart1 pyHash (fun _ => false) (fun _ => true) true 5 [b]
          posted status).status⟩ b la hla htype hnum htext hsig
        (List.not_mem_nil _) (by simp [hlook])
      show (selectStep ⟨[], [], (runPart1 pyHash (fun _ => false) (fun _ => true)
        true 5 [b] posted status).status⟩ b).candidates = []
      rw [hresel]
  · intro pyHash pub details c c2 posted status hpubc hdetc hpubc2 hdetc2 hnc hnc2
    have h1 := procStep_pub_false pyHash pub details 5 ⟨posted, status, 0, [], []⟩
      c (by show ¬ (5 : Nat) ≤ 0; decide) hpubc hdetc
    have hnf : ¬ (5 : Nat) ≤
        (procStep pyHash pub details true 5 ⟨posted, status, 0, [], []⟩ c).made := by
      rw [h1.2.2.1]
      show ¬ (5 : Nat) ≤ 0
      decide
    have hm2 : candidateActionId pyHash c2 ∉
        (procStep pyHash pub details true 5 ⟨posted, status, 0, [], []⟩ c).posted := by
      rw [h1.1]
      exact hnc2
    have h2 := procStep_pub_true pyHash pub details 5
      (procStep pyHash pub details true 5 ⟨posted, status, 0, [], []⟩ c) c2
      hnf hm2 hpubc2 hdetc2
    show (procStep pyHash pub details true 5
        (procStep pyHash pub details true 5 ⟨posted, status, 0, [], []⟩ c)
        c2).published = [candidateActionId pyHash c2]
    rw [h2, h1.2.1]
    rfl

/-- Witness for C1 (amended): the concrete single-bill run with a failing
publish call, and a concrete two-candidate loop where the first publish
fails and the second succeeds. -/
theorem C1_amended_witness :
    (runPart1 hashZero (fun _ => false) (fun _ => true) true 5 [c1Bill]
        [] []).published = [] ∧
    (runPart1 hashZero (fun _ => false) (fun _ => true) true 5 [c1Bill]
        [] []).posted = [] ∧
    alookup (runPart1 hashZero (fun _ => false) (fun _ => true) true 5 [c1Bill]
        [] []).status (pyLower "hr" ++ toString 471) =
      some ⟨"2026-01-22", "Passed House by the Yeas and Nays: 279 - 141"⟩ ∧
    (selectCandidates [c1Bill]
        (runPart1 hashZero (fun _ => false) (fun _ => true) true 5 [c1Bill]
          [] []).status).candidates = [] ∧
    (processCandidates hashZero pubSenateOnly detailsAlways true 5
        [c1wFail, c1wOk] ⟨[], [], 0, [], []⟩).published =
      [candidateActionId hashZero c1wOk] := by
  have hA := C1_amended.1 hashZero c1Bill
    ⟨"2026-01-22", "Passed House by the Yeas and Nays: 279 - 141", []⟩ [] []
    rfl (by decide) (by decide) (by decide) (by decide) (by decide)
  have hB := C1_amended.2 hashZero pubSenateOnly detailsAlways c1wFail c1wOk [] []
    (by decide) (by decide) (by decide) (by decide) (by simp) (by simp)
  exact ⟨hA.1, hA.2.1, hA.2.2.1, hA.2.2.2, hB⟩

end BillTracker
